import Mathlib

/-!
Verification of the paintball booking wizard: a shallow embedding of the
availability engine (AppointmentCalendar), the contact form validation
(PatientForm), the wizard step controller (BookingModal / Booking page) and
the confirmation write path (BookingConfirmation), with theorems settling
the specification claims about them.

Modelling conventions:
- Calendar dates are day indices (days since 1970-01-01, which was a
  Thursday).  The source formats a date as a "yyyy-MM-dd" string before
  comparing it with stored records; that rendering is a bijection on
  calendar days, so stored date strings are represented by the same day
  index.
- Clock instants are milliseconds since the epoch as a natural number.
  toISOString is an injective rendering of the instant, so the three
  timestamp fields are represented by the instant itself.
- The execution model is single-threaded and synchronous: all clock reads
  inside one synchronous handler observe the same instant.
-/

namespace PaintballBooking

/-! ## Availability engine (AppointmentCalendar component) -/

/-- Day of week of a day index: JS getDay() returns 0 for Sunday, and day 0
(1970-01-01) was a Thursday (getDay() = 4). -/
def dayOfWeek (d : Nat) : Nat := (d + 4) % 7

/-- The fixed list of 13 daily appointment time slots (source: timeSlots). -/
def timeSlots : List String :=
  ["09:00", "09:30", "10:00", "10:30", "11:00", "11:30",
   "14:00", "14:30", "15:00", "15:30", "16:00", "16:30", "17:00"]

/-- The status value that does not block a slot. -/
def noShowStatus : String := "Didn\x27t show up"

/-- A record of the persisted `appointments` collection (read-only input). -/
structure Appointment where
  appointment_date : Nat
  appointment_time : String
  status : String
deriving DecidableEq

/-- A record of the persisted `unavailable_schedules` collection. -/
structure Schedule where
  unavailable_date : Nat
  is_full_day : Bool
  unavailable_time : String
deriving DecidableEq

/-- The booked-times-by-date map built by loadBookedAppointments: the map
iterates the appointments, skipping records with the no-show status, and
groups the remaining appointment times under their date key.  Looking up a
date key in that map yields exactly the times of the non-no-show
appointments on that date, in order of appearance. -/
def bookedTimesFor (appointments : List Appointment) (dateKey : Nat) : List String :=
  (appointments.filter fun a =>
    a.status != noShowStatus && a.appointment_date == dateKey).map
    fun a => a.appointment_time

/-- The component state the availability predicates read: todays date, the
currently selected date (if any), and the two collections loaded at mount. -/
structure CalendarState where
  today : Nat
  selected : Option Nat
  appointments : List Appointment
  unavailableSchedules : List Schedule
deriving DecidableEq

/-- isDateDisabled (source lines 69-88): past dates, dates more than 60 days
ahead, Sundays, and dates with a full-day unavailability entry are disabled. -/
def isDateDisabled (st : CalendarState) (date : Nat) : Bool :=
  if date < st.today ∨ st.today + 60 < date then true
  else if dayOfWeek date = 0 then true
  else st.unavailableSchedules.any fun s =>
    s.unavailable_date == date && s.is_full_day

/-- isTimeSlotAvailable (source lines 90-109): false with no selected date;
false when the time is among the booked times of the selected date; false
when a non-full-day unavailability entry for the selected date names exactly
this time; true otherwise. -/
def isTimeSlotAvailable (st : CalendarState) (time : String) : Bool :=
  match st.selected with
  | none => false
  | some d =>
    let bookedTimes := bookedTimesFor st.appointments d
    if bookedTimes.contains time then false
    else
      let isUnavailable := st.unavailableSchedules.any fun s =>
        s.unavailable_date == d && !s.is_full_day && s.unavailable_time == time
      !isUnavailable

/-- getAvailableTimesCount (source lines 127-130). -/
def getAvailableTimesCount (st : CalendarState) : Nat :=
  match st.selected with
  | none => 0
  | some _ => (timeSlots.filter fun t => isTimeSlotAvailable st t).length

/-! ## Contact form validation (PatientForm component, bookingSchema) -/

/-- The submitted form record; the form initialises every field (missing
optional fields default to the empty string, groupSize to 1), so all fields
are present at validation time. -/
structure BookingFormInput where
  customerName : String
  email : String
  phone : String
  service : String
  groupSize : Int
  specialRequests : String
  emergencyContact : String
  experience : String
deriving DecidableEq

/-- Abstraction of the email format test of the external validation library
(zod .email()); its exact pattern is an external collaborator and no claim
depends on it beyond its existence. -/
def emailFormatOk (s : String) : Bool := s.contains '@'

/-- customerName: z.string().min(2, ...): fails when the string is shorter
than 2 characters. -/
def customerNameError (s : String) : Option String :=
  if s.length < 2 then some "Name must be at least 2 characters" else none

/-- email: z.string().email(...).optional().or(z.literal(&#x27;&#x27;)) with
the apostrophes removed: the empty string or a well-formed address passes. -/
def emailError (s : String) : Option String :=
  if s == "" || emailFormatOk s then none else some "Invalid email address"

/-- phone: z.string().min(10, ...): the check is on the LENGTH of the
string, i.e. it fails exactly when the string has fewer than 10 characters,
whatever characters they are. -/
def phoneError (s : String) : Option String :=
  if s.length < 10 then some "Phone number must be at least 10 digits" else none

/-- service: z.string().min(1, ...). -/
def serviceError (s : String) : Option String :=
  if s.length < 1 then some "Please select a service" else none

/-- groupSize: z.number().min(1, ...).max(50, ...). -/
def groupSizeError (n : Int) : Option String :=
  if n < 1 then some "Group size must be at least 1"
  else if 50 < n then some "Maximum group size is 50"
  else none

/-- The resolver blocks submission (the submit callback is not invoked)
unless every field validates. -/
def formValid (f : BookingFormInput) : Bool :=
  (customerNameError f.customerName).isNone &&
  (emailError f.email).isNone &&
  (phoneError f.phone).isNone &&
  (serviceError f.service).isNone &&
  (groupSizeError f.groupSize).isNone

/-- Number of decimal digit characters in a string (used to state the claim
about the phone field, which speaks of digits). -/
def digitCount (s : String) : Nat := (s.toList.filter Char.isDigit).length

/-! ## Wizard controller (BookingModal) -/

/-- The accumulated Partial BookingData of the controller: every key may be
absent. -/
structure WizardData where
  customerName : Option String
  email : Option String
  phone : Option String
  service : Option String
  bookingDate : Option String
  bookingTime : Option String
  groupSize : Option Int
  specialRequests : Option String
  emergencyContact : Option String
  experience : Option String
deriving DecidableEq

/-- The initial accumulated state: the empty object. -/
def emptyWizardData : WizardData :=
  { customerName := none, email := none, phone := none, service := none,
    bookingDate := none, bookingTime := none, groupSize := none,
    specialRequests := none, emergencyContact := none, experience := none }

/-- JS object spread semantics for one key: a key present in the newer
partial object overwrites the older value. -/
def overwrite {α : Type} (newer older : Option α) : Option α :=
  match newer with
  | some v => some v
  | none => older

/-- The controller merge (setBookingData prev => ({...prev, ...data})):
field-wise spread, later values overwriting earlier ones for the same key. -/
def mergeWizardData (prev data : WizardData) : WizardData :=
  { customerName := overwrite data.customerName prev.customerName,
    email := overwrite data.email prev.email,
    phone := overwrite data.phone prev.phone,
    service := overwrite data.service prev.service,
    bookingDate := overwrite data.bookingDate prev.bookingDate,
    bookingTime := overwrite data.bookingTime prev.bookingTime,
    groupSize := overwrite data.groupSize prev.groupSize,
    specialRequests := overwrite data.specialRequests prev.specialRequests,
    emergencyContact := overwrite data.emergencyContact prev.emergencyContact,
    experience := overwrite data.experience prev.experience }

/-- The keys of BookingData, to state key-wise properties of the merge. -/
inductive BookingKey
  | customerName | email | phone | service | bookingDate | bookingTime
  | groupSize | specialRequests | emergencyContact | experience
deriving DecidableEq

/-- A field value is a string or a number. -/
inductive FieldValue
  | str (s : String)
  | num (n : Int)
deriving DecidableEq

/-- Key-indexed view of the accumulated data. -/
def getField (b : WizardData) : BookingKey → Option FieldValue
  | .customerName => b.customerName.map .str
  | .email => b.email.map .str
  | .phone => b.phone.map .str
  | .service => b.service.map .str
  | .bookingDate => b.bookingDate.map .str
  | .bookingTime => b.bookingTime.map .str
  | .groupSize => b.groupSize.map .num
  | .specialRequests => b.specialRequests.map .str
  | .emergencyContact => b.emergencyContact.map .str
  | .experience => b.experience.map .str

/-- The controller state: the current step index and the accumulated data.
The step is an integer because the back handler decrements it with no lower
bound in the source. -/
structure WizardState where
  currentStep : Int
  bookingData : WizardData
deriving DecidableEq

/-- handleStepComplete (BookingModal lines 31-34): merge the partial data of
the finished step and advance one step. -/
def handleStepComplete (s : WizardState) (data : WizardData) : WizardState :=
  { currentStep := s.currentStep + 1,
    bookingData := mergeWizardData s.bookingData data }

/-- handleBack (BookingModal lines 36-38): unguarded decrement, data kept. -/
def handleBack (s : WizardState) : WizardState :=
  { currentStep := s.currentStep - 1, bookingData := s.bookingData }

/-- handleClose (BookingModal lines 40-44): reset to step 1, clear the data. -/
def handleClose (_s : WizardState) : WizardState :=
  { currentStep := 1, bookingData := emptyWizardData }

/-- The wizard events the rendered UI can raise. -/
inductive WizardEvent
  | complete (data : WizardData)
  | back
  | close

/-- Which events the rendered UI wires at a given step (renderStep,
BookingModal lines 46-75 and Booking page lines 40-69): the completion
callback is passed only to the step-1 calendar and the step-2 form, the back
callback only to the step-2 form and the step-3 confirmation, and the
enclosing dialog exposes close at every step. -/
def eventWired (step : Int) : WizardEvent → Bool
  | .complete _ => step == 1 || step == 2
  | .back => step == 2 || step == 3
  | .close => true

/-- The handler invoked by each event. -/
def applyEvent (s : WizardState) : WizardEvent → WizardState
  | .complete data => handleStepComplete s data
  | .back => handleBack s
  | .close => handleClose s

/-- The initial controller state (useState(1), useState({})). -/
def initialWizardState : WizardState :=
  { currentStep := 1, bookingData := emptyWizardData }

/-- States the wizard can actually be in: the initial state, and any state
produced by an event that the rendered UI wires at the current step. -/
inductive Reachable : WizardState → Prop
  | init : Reachable initialWizardState
  | next {s : WizardState} {e : WizardEvent} : Reachable s →
      eventWired s.currentStep e = true → Reachable (applyEvent s e)

/-! ## Confirmation write path (BookingConfirmation component) -/

/-- The fully populated BookingData handed to the confirmation step. -/
structure BookingData where
  customerName : String
  email : String
  phone : String
  service : String
  bookingDate : String
  bookingTime : String
  groupSize : Int
  specialRequests : Option String
  emergencyContact : Option String
  experience : Option String
deriving DecidableEq

/-- A record of the persisted paintball_bookings collection: the BookingData
fields plus the generated identifier, a status and three timestamps.
Timestamps are the captured instants (toISOString is injective, see the file
header). -/
structure StoredBooking where
  id : String
  data : BookingData
  status : String
  created_at : Nat
  updated_at : Nat
  booked_at : Nat
deriving DecidableEq

/-- The record built inside handleConfirmBooking (source lines 483-494):
id = Date.now().toString(), status Pending, and the three timestamp fields
all captured during the same synchronous handler run, hence at the same
instant `now`. -/
def newBooking (bookingData : BookingData) (now : Nat) : StoredBooking :=
  { id := Nat.repr now, data := bookingData, status := "Pending",
    created_at := now, updated_at := now, booked_at := now }

/-- What the confirm handler leaves behind: the persisted collection, which
toast was signalled, and whether the delayed close/navigate-away timer was
scheduled. -/
structure ConfirmResult where
  bookings : List StoredBooking
  successToast : Bool
  failureToast : Bool
  closeScheduled : Bool
deriving DecidableEq

/-- handleConfirmBooking (source lines 480-521).  `stored` is the persisted
paintball_bookings collection before the action; `readOk` models whether
JSON.parse of the stored value succeeds, `writeOk` whether
localStorage.setItem succeeds (setItem replaces the whole serialized array
in one step, so a failed write leaves the prior value).  An exception at
either storage step jumps to the catch block: the failure toast is shown,
the close timer is never scheduled, and the collection keeps its prior
value; on success the handler appends the one new record, shows the success
toast and schedules the delayed onClose call. -/
def handleConfirmBooking (bookingData : BookingData) (now : Nat)
    (stored : List StoredBooking) (readOk writeOk : Bool) : ConfirmResult :=
  if !readOk then
    { bookings := stored, successToast := false, failureToast := true,
      closeScheduled := false }
  else
    let existingBookings := stored
    let updated := existingBookings ++ [newBooking bookingData now]
    if !writeOk then
      { bookings := stored, successToast := false, failureToast := true,
        closeScheduled := false }
    else
      { bookings := updated, successToast := true, failureToast := false,
        closeScheduled := true }

/-- The identifiers present in a persisted collection. -/
def bookingIds (l : List StoredBooking) : List String :=
  l.map fun b => b.id

/-! ## Concrete inputs used by the scenario theorems, counterexamples and
witnesses.  Day indices: 19723 is Monday 2024-01-01, 19729 is Sunday
2024-01-07, 19730 is Monday 2024-01-08. -/

/-- Scenario of the spec: today Monday 2024-01-01, date 2024-01-08 selected,
no bookings, no unavailability. -/
def scenarioState : CalendarState :=
  { today := 19723, selected := some 19730, appointments := [],
    unavailableSchedules := [] }

/-- A fully populated BookingData used at concrete inputs. -/
def sampleBooking : BookingData :=
  { customerName := "Alex Cruz", email := "", phone := "0917 123 4567",
    service := "Paintball Regular (P 700 + 30 bullets)",
    bookingDate := "2024-01-08", bookingTime := "10:00", groupSize := 5,
    specialRequests := none, emergencyContact := none, experience := none }

/-- A submitted form whose phone has 10 characters but only 7 digits. -/
def tenCharPhoneForm : BookingFormInput :=
  { customerName := "Jo", email := "", phone := "(123) 4567",
    service := "Paintball Regular (P 700 + 30 bullets)", groupSize := 10,
    specialRequests := "", emergencyContact := "", experience := "" }

/-- A submitted form whose phone is the 5-digit string of the spec scenario. -/
def shortPhoneForm : BookingFormInput :=
  { customerName := "Jo", email := "", phone := "12345",
    service := "Paintball Regular (P 700 + 30 bullets)", groupSize := 10,
    specialRequests := "", emergencyContact := "", experience := "" }

/-- A calendar state whose only unavailability entry is a partial-day entry
on Sunday 2024-01-07, a date inside the booking window. -/
def sundayPartialState : CalendarState :=
  { today := 19723, selected := none, appointments := [],
    unavailableSchedules := [{ unavailable_date := 19729, is_full_day := false,
                               unavailable_time := "10:00" }] }

/-- A persisted collection already holding a record whose identifier is
"100" (a record created at instant 100). -/
def clashStore : List StoredBooking :=
  [{ id := "100", data := sampleBooking, status := "Pending",
     created_at := 100, updated_at := 100, booked_at := 100 }]

/-! ## Theorems -/

/-- C1: confirming with the storage read and write both succeeding appends
exactly one record to the persisted collection: the prior records are
unchanged and in place, and the new record has status Pending and its three
timestamps equal. -/
theorem confirm_appends_one_pending (d : BookingData) (now : Nat)
    (stored : List StoredBooking) :
    ∃ b : StoredBooking,
      (handleConfirmBooking d now stored true true).bookings = stored ++ [b] ∧
      b.status = "Pending" ∧
      b.created_at = b.updated_at ∧ b.updated_at = b.booked_at ∧
      (handleConfirmBooking d now stored true true).bookings.length
        = stored.length + 1 := by
  refine ⟨newBooking d now, rfl, rfl, rfl, rfl, ?_⟩
  simp [handleConfirmBooking]

/-- C8: if the storage read or the storage write fails during the confirm
action, the failure toast is signalled, no success toast is shown, the
delayed close/navigate-away call is never scheduled (the wizard stays on the
confirmation step), and the persisted collection keeps its prior value. -/
theorem confirm_failure_leaves_store (d : BookingData) (now : Nat)
    (stored : List StoredBooking) (readOk writeOk : Bool)
    (h : readOk = false ∨ writeOk = false) :
    (handleConfirmBooking d now stored readOk writeOk).bookings = stored ∧
    (handleConfirmBooking d now stored readOk writeOk).failureToast = true ∧
    (handleConfirmBooking d now stored readOk writeOk).successToast = false ∧
    (handleConfirmBooking d now stored readOk writeOk).closeScheduled = false := by
  cases readOk <;> cases writeOk <;> simp_all [handleConfirmBooking]

/-- Witness for C8 at a concrete input: a failed write at instant
1704672000000 with an empty prior collection. -/
theorem confirm_failure_leaves_store_witness :
    (handleConfirmBooking sampleBooking 1704672000000 [] true false).bookings = [] ∧
    (handleConfirmBooking sampleBooking 1704672000000 [] true false).failureToast = true ∧
    (handleConfirmBooking sampleBooking 1704672000000 [] true false).successToast = false ∧
    (handleConfirmBooking sampleBooking 1704672000000 [] true false).closeScheduled = false :=
  confirm_failure_leaves_store sampleBooking 1704672000000 [] true false (Or.inr rfl)

/-- C2 counterexample: the phone check is on string length, not digit count:
the 10-character phone of tenCharPhoneForm has only 7 digits, yet the field
validates and the whole form passes, so a record with fewer than 10 digits
is not blocked. -/
theorem phone_digit_rule_counterexample :
    digitCount tenCharPhoneForm.phone = 7 ∧
    phoneError tenCharPhoneForm.phone = none ∧
    formValid tenCharPhoneForm = true := by decide

/-- C2 amended: the phone field is required and must be at least 10
CHARACTERS long: any shorter phone fails with the minimum-length message and
blocks submission, and the 10-character phone "1234567890" passes.  The
5-character "12345" of the spec scenario is an instance. -/
theorem phone_min_length_validation (f : BookingFormInput)
    (h : f.phone.length < 10) :
    phoneError f.phone = some "Phone number must be at least 10 digits" ∧
    formValid f = false ∧
    phoneError "12345" = some "Phone number must be at least 10 digits" ∧
    phoneError "1234567890" = none := by
  refine ⟨?_, ?_, by decide, by decide⟩
  · simp [phoneError, h]
  · simp [formValid, phoneError, h]

/-- Witness for C2 at the concrete form whose phone is "12345". -/
theorem phone_min_length_validation_witness :
    phoneError shortPhoneForm.phone = some "Phone number must be at least 10 digits" ∧
    formValid shortPhoneForm = false ∧
    phoneError "12345" = some "Phone number must be at least 10 digits" ∧
    phoneError "1234567890" = none :=
  phone_min_length_validation shortPhoneForm (by decide)

/-- Spread semantics of one merged key, lifted through the key view. -/
theorem getField_merge (prev data : WizardData) (k : BookingKey) :
    getField (mergeWizardData prev data) k =
      match getField data k with
      | some v => some v
      | none => getField prev k := by
  obtain ⟨cn, em, ph, sv, bd, bt, gs, sr, ec, ex⟩ := data
  cases k <;>
    first
      | (cases cn <;> rfl)
      | (cases em <;> rfl)
      | (cases ph <;> rfl)
      | (cases sv <;> rfl)
      | (cases bd <;> rfl)
      | (cases bt <;> rfl)
      | (cases gs <;> rfl)
      | (cases sr <;> rfl)
      | (cases ec <;> rfl)
      | (cases ex <;> rfl)

/-- C7: the controller transitions: the step-completion callback advances
one step and merges the partial data key-wise with newer values overwriting
older ones; back moves one step down keeping all accumulated data; close
resets to step 1 with every key cleared. -/
theorem wizard_controller_transitions (s : WizardState) (data : WizardData)
    (k : BookingKey) :
    (handleStepComplete s data).currentStep = s.currentStep + 1 ∧
    getField (handleStepComplete s data).bookingData k =
      (match getField data k with
       | some v => some v
       | none => getField s.bookingData k) ∧
    (handleBack s).currentStep = s.currentStep - 1 ∧
    (handleBack s).bookingData = s.bookingData ∧
    (handleClose s).currentStep = 1 ∧
    getField (handleClose s).bookingData k = none := by
  refine ⟨rfl, getField_merge s.bookingData data k, rfl, rfl, rfl, ?_⟩
  cases k <;> rfl

/-- C10: every reachable wizard state has its step in 1..3: back is only
wired into steps 2 and 3, completion only into steps 1 and 2, and close
resets to 1, so the unguarded decrement of the back handler never leaves the
range. -/
theorem wizard_step_in_range (s : WizardState) (h : Reachable s) :
    s.currentStep = 1 ∨ s.currentStep = 2 ∨ s.currentStep = 3 := by
  induction h with
  | init => left; rfl
  | @next s e hr hw ih =>
    cases e with
    | complete data =>
      have hs : s.currentStep = 1 ∨ s.currentStep = 2 := by
        simpa [eventWired] using hw
      simp only [applyEvent, handleStepComplete]
      omega
    | back =>
      have hs : s.currentStep = 2 ∨ s.currentStep = 3 := by
        simpa [eventWired] using hw
      simp only [applyEvent, handleBack]
      omega
    | close => left; rfl

/-- Witness for C10: the state reached by completing step 1 from the initial
state has its step in range. -/
theorem wizard_step_in_range_witness :
    (applyEvent initialWizardState (WizardEvent.complete emptyWizardData)).currentStep = 1 ∨
    (applyEvent initialWizardState (WizardEvent.complete emptyWizardData)).currentStep = 2 ∨
    (applyEvent initialWizardState (WizardEvent.complete emptyWizardData)).currentStep = 3 :=
  wizard_step_in_range _ (Reachable.next Reachable.init (by decide))

/-- Characterization of isDateDisabled, shared by the availability theorems. -/
theorem isDateDisabled_true_iff (st : CalendarState) (d : Nat) :
    isDateDisabled st d = true ↔
      d < st.today ∨ st.today + 60 < d ∨ dayOfWeek d = 0 ∨
        ∃ s ∈ st.unavailableSchedules,
          s.unavailable_date = d ∧ s.is_full_day = true := by
  unfold isDateDisabled
  split_ifs with h1 h2
  · simp only [true_iff]; tauto
  · simp only [true_iff]; tauto
  · simp only [List.any_eq_true, Bool.and_eq_true, beq_iff_eq]
    constructor
    · rintro ⟨s, hs, hd, hf⟩
      exact Or.inr (Or.inr (Or.inr ⟨s, hs, hd, hf⟩))
    · rintro (h | h | h | ⟨s, hs, hd, hf⟩)
      · exact absurd (Or.inl h) h1
      · exact absurd (Or.inr h) h1
      · exact absurd h h2
      · exact ⟨s, hs, hd, hf⟩

/-- C3: isDateDisabled is true exactly on dates strictly before today, more
than 60 days after today, Sundays, or dates with a full-day unavailability
entry; in particular every Sunday is disabled whatever the unavailability
data is. -/
theorem isDateDisabled_correct (st : CalendarState) (d : Nat) :
    (isDateDisabled st d = true ↔
      d < st.today ∨ st.today + 60 < d ∨ dayOfWeek d = 0 ∨
        ∃ s ∈ st.unavailableSchedules,
          s.unavailable_date = d ∧ s.is_full_day = true) ∧
    (dayOfWeek d = 0 → isDateDisabled st d = true) :=
  ⟨isDateDisabled_true_iff st d,
   fun hsun => (isDateDisabled_true_iff st d).mpr (Or.inr (Or.inr (Or.inl hsun)))⟩

/-- C5: getAvailableTimesCount equals the number of the 13 fixed slots for
which isTimeSlotAvailable is true, and it equals 13 in the spec scenario
(today Monday 2024-01-01, date 2024-01-08 selected, no bookings, no
unavailability). -/
theorem getAvailableTimesCount_correct (st : CalendarState) :
    getAvailableTimesCount st =
      (timeSlots.filter fun t => isTimeSlotAvailable st t).length ∧
    getAvailableTimesCount scenarioState = 13 := by
  refine ⟨?_, by decide⟩
  cases hsel : st.selected with
  | none => simp [getAvailableTimesCount, hsel, isTimeSlotAvailable]
  | some d => simp [getAvailableTimesCount, hsel]

/-- C6 counterexample: Sunday 2024-01-07 lies inside the booking window and
its only unavailability entry is a partial-day one, yet isDateDisabled is
true (the Sunday rule fires), so a date with only a matching partial-day
entry is not always enabled. -/
theorem partial_day_counterexample :
    (∀ s ∈ sundayPartialState.unavailableSchedules,
        s.unavailable_date = 19729 → s.is_full_day = false) ∧
    (∃ s ∈ sundayPartialState.unavailableSchedules, s.unavailable_date = 19729) ∧
    sundayPartialState.today ≤ 19729 ∧ 19729 ≤ sundayPartialState.today + 60 ∧
    isDateDisabled sundayPartialState 19729 = true := by decide

/-- C6 amended: a date with a matching full-day entry is always disabled; a
date inside the booking window that is not a Sunday and whose matching
entries are all partial-day is not disabled, and the time named by a
partial-day entry is excluded from isTimeSlotAvailable when that date is
selected. -/
theorem unavailability_entry_effects (st : CalendarState) (d : Nat) (time : String) :
    ((∃ s ∈ st.unavailableSchedules, s.unavailable_date = d ∧ s.is_full_day = true) →
      isDateDisabled st d = true) ∧
    (st.today ≤ d → d ≤ st.today + 60 → dayOfWeek d ≠ 0 →
      (∃ s ∈ st.unavailableSchedules, s.unavailable_date = d) →
      (∀ s ∈ st.unavailableSchedules, s.unavailable_date = d → s.is_full_day = false) →
      isDateDisabled st d = false) ∧
    (st.selected = some d →
      (∃ s ∈ st.unavailableSchedules, s.unavailable_date = d ∧ s.is_full_day = false ∧
        s.unavailable_time = time) →
      isTimeSlotAvailable st time = false) := by
  refine ⟨?_, ?_, ?_⟩
  · intro h
    exact (isDateDisabled_true_iff st d).mpr (Or.inr (Or.inr (Or.inr h)))
  · intro hlo hhi hsun _hmatch hall
    have hne : ¬(isDateDisabled st d = true) := by
      rw [isDateDisabled_true_iff]
      rintro (h | h | h | ⟨s, hs, hd, hf⟩)
      · omega
      · omega
      · exact hsun h
      · rw [hall s hs hd] at hf
        exact Bool.false_ne_true hf
    exact Bool.eq_false_iff.mpr hne
  · rintro hsel ⟨s, hs, hd, hf, ht⟩
    simp only [isTimeSlotAvailable, hsel]
    split_ifs with hb
    · rfl
    · simp only [Bool.not_eq_false', List.any_eq_true, Bool.and_eq_true, beq_iff_eq,
        Bool.not_eq_true']
      exact ⟨s, hs, ⟨hd, hf⟩, ht⟩

/-- Membership in the booked-times map built by loadBookedAppointments. -/
theorem mem_bookedTimesFor (appointments : List Appointment) (d : Nat) (time : String) :
    time ∈ bookedTimesFor appointments d ↔
      ∃ a ∈ appointments, a.status ≠ noShowStatus ∧
        a.appointment_date = d ∧ a.appointment_time = time := by
  unfold bookedTimesFor
  simp only [List.mem_map, List.mem_filter, Bool.and_eq_true, bne_iff_ne, beq_iff_eq]
  constructor
  · rintro ⟨a, ⟨ha, hst, hd⟩, ht⟩
    exact ⟨a, ha, hst, hd, ht⟩
  · rintro ⟨a, ha, hst, hd, ht⟩
    exact ⟨a, ⟨ha, hst, hd⟩, ht⟩

/-- C4: isTimeSlotAvailable is true exactly when a date is selected, the
time is not among the appointments of that date whose status differs from
the no-show status (a no-show booking does not block the slot), and no
partial-day unavailability entry of that date names exactly this time; with
no date selected it is false. -/
theorem isTimeSlotAvailable_correct (st : CalendarState) (time : String) :
    isTimeSlotAvailable st time = true ↔
      ∃ d, st.selected = some d ∧
        (¬ ∃ a ∈ st.appointments, a.status ≠ noShowStatus ∧
            a.appointment_date = d ∧ a.appointment_time = time) ∧
        ¬ ∃ s ∈ st.unavailableSchedules, s.unavailable_date = d ∧
            s.is_full_day = false ∧ s.unavailable_time = time := by
  cases hsel : st.selected with
  | none => simp [isTimeSlotAvailable, hsel]
  | some d0 =>
    simp only [isTimeSlotAvailable, hsel, Option.some.injEq]
    have hcont : (bookedTimesFor st.appointments d0).contains time = true ↔
        ∃ a ∈ st.appointments, a.status ≠ noShowStatus ∧
          a.appointment_date = d0 ∧ a.appointment_time = time := by
      rw [List.contains_iff_exists_mem_beq]
      constructor
      · rintro ⟨t, ht, hbeq⟩
        rw [beq_iff_eq] at hbeq
        subst hbeq
        exact (mem_bookedTimesFor st.appointments d0 time).mp ht
      · intro h
        exact ⟨time, (mem_bookedTimesFor st.appointments d0 time).mpr h,
          beq_self_eq_true time⟩
    split_ifs with hb
    · simp only [false_iff]
      rintro ⟨d, hdd, hbooked, _⟩
      subst hdd
      exact hbooked (hcont.mp hb)
    · rw [Bool.not_eq_true', List.any_eq_false]
      constructor
      · intro hall
        refine ⟨d0, rfl, fun hbooked => hb (hcont.mpr hbooked), ?_⟩
        rintro ⟨s, hs, hd, hf, ht⟩
        exact hall s hs (by simp [hd, hf, ht])
      · rintro ⟨d, hdd, _hbk, hnon⟩ s hs hps
        subst hdd
        simp only [Bool.and_eq_true, beq_iff_eq, Bool.not_eq_true'] at hps
        exact hnon ⟨s, hs, hps.1.1, hps.1.2, hps.2⟩

/-- The digit accumulator of Nat.toDigitsCore is simply appended. -/
theorem toDigitsCore_acc (b : Nat) :
    ∀ (f n : Nat) (l : List Char),
      Nat.toDigitsCore b f n l = Nat.toDigitsCore b f n [] ++ l := by
  intro f
  induction f with
  | zero => intro n l; rfl
  | succ f ih =>
    intro n l
    simp only [Nat.toDigitsCore]
    split_ifs with h
    · rfl
    · rw [ih (n / b) (Nat.digitChar (n % b) :: l), ih (n / b) (Nat.digitChar (n % b) :: [])]
      rw [List.append_assoc]
      rfl

/-- One unfolding step of Nat.toDigitsCore. -/
theorem toDigitsCore_succ (b f n : Nat) (l : List Char) :
    Nat.toDigitsCore b (f + 1) n l =
      if n / b = 0 then Nat.digitChar (n % b) :: l
      else Nat.toDigitsCore b f (n / b) (Nat.digitChar (n % b) :: l) := rfl

/-- One more unit of fuel does not change the digits once the fuel exceeds
the number. -/
theorem toDigitsCore_fuel_succ (b : Nat) (hb : 2 ≤ b) :
    ∀ (f n : Nat) (l : List Char), n < f →
      Nat.toDigitsCore b f n l = Nat.toDigitsCore b (f + 1) n l := by
  intro f
  induction f with
  | zero => intro n l h; omega
  | succ f ih =>
    intro n l h
    rw [toDigitsCore_succ b f n l, toDigitsCore_succ b (f + 1) n l]
    by_cases hz : n / b = 0
    · rw [if_pos hz, if_pos hz]
    · rw [if_neg hz, if_neg hz]
      apply ih
      have hn : 0 < n := Nat.pos_of_ne_zero fun h0 => hz (by simp [h0])
      have hd := Nat.div_lt_self hn (by omega : 1 < b)
      omega

/-- Any sufficient fuel computes the same digits as Nat.toDigits. -/
theorem toDigitsCore_eq_toDigits (b : Nat) (hb : 2 ≤ b) (n : Nat) :
    ∀ f, n < f → Nat.toDigitsCore b f n [] = Nat.toDigits b n := by
  intro f
  induction f with
  | zero => intro h; omega
  | succ f ih =>
    intro h
    rcases Nat.lt_or_ge n f with hlt | hge
    · rw [← toDigitsCore_fuel_succ b hb f n [] hlt, ih hlt]
    · have : f = n := by omega
      subst this
      rfl

/-- The recurrence of decimal digit strings: one final digit after the
digits of the quotient. -/
theorem toDigits_step (n : Nat) :
    Nat.toDigits 10 n =
      if n < 10 then [Nat.digitChar n]
      else Nat.toDigits 10 (n / 10) ++ [Nat.digitChar (n % 10)] := by
  show Nat.toDigitsCore 10 (n + 1) n [] = _
  rw [toDigitsCore_succ 10 n n []]
  by_cases h : n < 10
  · rw [if_pos (by omega : n / 10 = 0), if_pos h, Nat.mod_eq_of_lt h]
  · rw [if_neg (by omega : ¬n / 10 = 0), if_neg h,
      toDigitsCore_acc 10 n (n / 10) (Nat.digitChar (n % 10) :: [])]
    have hdiv : n / 10 < n := Nat.div_lt_self (by omega) (by omega)
    rw [toDigitsCore_eq_toDigits 10 (by omega) (n / 10) n hdiv]

/-- Nat.digitChar is injective below 10. -/
theorem digitChar_inj_lt : ∀ a < 10, ∀ b < 10,
    Nat.digitChar a = Nat.digitChar b → a = b := by decide

/-- A decimal digit string is never empty. -/
theorem toDigits_ne_nil (n : Nat) : Nat.toDigits 10 n ≠ [] := by
  rw [toDigits_step n]
  split_ifs with h
  · simp
  · simp

/-- Decimal digit strings are injective. -/
theorem toDigits_ten_inj : ∀ a b : Nat, Nat.toDigits 10 a = Nat.toDigits 10 b → a = b := by
  intro a
  induction a using Nat.strong_induction_on with
  | _ a ih =>
    intro b h
    rw [toDigits_step a, toDigits_step b] at h
    by_cases ha : a < 10 <;> by_cases hb : b < 10
    · rw [if_pos ha, if_pos hb] at h
      simp only [List.cons.injEq, and_true] at h
      exact digitChar_inj_lt a ha b hb h
    · rw [if_pos ha, if_neg hb] at h
      have hlen := congrArg List.length h
      simp only [List.length_cons, List.length_nil, List.length_append] at hlen
      have hnil : Nat.toDigits 10 (b / 10) = [] := List.length_eq_zero.mp (by omega)
      exact absurd hnil (toDigits_ne_nil _)
    · rw [if_neg ha, if_pos hb] at h
      have hlen := congrArg List.length h
      simp only [List.length_cons, List.length_nil, List.length_append] at hlen
      have hnil : Nat.toDigits 10 (a / 10) = [] := List.length_eq_zero.mp (by omega)
      exact absurd hnil (toDigits_ne_nil _)
    · rw [if_neg ha, if_neg hb] at h
      obtain ⟨h1, h2⟩ := List.append_inj' h (by simp)
      have hq : a / 10 = b / 10 :=
        ih (a / 10) (Nat.div_lt_self (by omega) (by omega)) (b / 10) h1
      have hr : a % 10 = b % 10 :=
        digitChar_inj_lt (a % 10) (Nat.mod_lt a (by omega)) (b % 10)
          (Nat.mod_lt b (by omega)) (by simpa using h2)
      omega

/-- The decimal rendering of a natural number is injective. -/
theorem natRepr_inj (a b : Nat) (h : Nat.repr a = Nat.repr b) : a = b :=
  toDigits_ten_inj a b (congrArg String.data h)

/-- C9 counterexample: the generated identifier is the decimal rendering of
the clock instant with no collision check, so confirming at instant 100 over
a collection already holding a record with identifier "100" appends a record
whose identifier is already present. -/
theorem bookingId_collision :
    (newBooking sampleBooking 100).id ∈ bookingIds clashStore ∧
    (handleConfirmBooking sampleBooking 100 clashStore true true).bookings =
      clashStore ++ [newBooking sampleBooking 100] := by
  constructor
  · decide
  · rfl

/-- C9 amended: the generated identifier is unique among the stored ones
provided every stored record carries the identifier generated at a strictly
earlier clock instant (a never-repeating clock); the code itself performs no
collision check. -/
theorem bookingId_unique_of_earlier (d : BookingData) (now : Nat)
    (stored : List StoredBooking)
    (h : ∀ b ∈ stored, ∃ m : Nat, m < now ∧ b.id = Nat.repr m) :
    (newBooking d now).id ∉ bookingIds stored := by
  intro hmem
  simp only [bookingIds, newBooking, List.mem_map] at hmem
  obtain ⟨b, hb, hid⟩ := hmem
  obtain ⟨m, hm, hbid⟩ := h b hb
  rw [hbid] at hid
  have := natRepr_inj m now hid
  omega

/-- Witness for C9: confirming at instant 200 over the collection whose only
record was created at instant 100 generates a fresh identifier. -/
theorem bookingId_unique_of_earlier_witness :
    ((newBooking sampleBooking 200).id ∈ bookingIds clashStore) = False :=
  eq_false (bookingId_unique_of_earlier sampleBooking 200 clashStore
    (by
      intro b hb
      simp only [clashStore, List.mem_singleton] at hb
      subst hb
      exact ⟨100, by omega, by decide⟩))

end PaintballBooking
